import Mathlib

/-!
Verification of the candy-dispenser control loop (`src/Dispenser.ino`).

The sketch is a single Arduino `loop()` that each cycle:
reads the button (manual dispense while held), reads the ultrasonic
distance, updates a consecutive-near-reading counter `currThreshold`,
runs the one-shot automatic dispense when the counter equals `Threshold`
and the button is not active, and emits a block-warning beep whenever the
counter exceeds 3.

We embed the loop shallowly: one cycle is a pure function from the counter
state and the cycle's inputs (button level, measured distance) to the new
counter and the actuation effects of that cycle; a whole execution is the
trace of that function over a list of per-cycle inputs.
-/

namespace Dispenser

/-! ## Configuration constants (from the source) -/

/-- `const int stepsPerRevolution = 100;` -/
def stepsPerRevolution : Nat := 100

/-- `const int Threshold = 2;` — consecutive close readings required. -/
def Threshold : Nat := 2

/-- The literal `3` in `if (currThreshold > 3)` — block-warning threshold. -/
def blockWarningThreshold : Nat := 3

/-- The literal `30` in `if (distance < 30)` — near-distance limit in cm. -/
def nearLimit : Nat := 30

/-! ## Sensor shim -/

/-- `int distance = duration * 0.034 / 2;` from `getDistance`.
The double-precision product truncated to `int`, modelled in exact rational
arithmetic `⌊duration * 34 / 2000⌋`; exact at the no-echo sentinel
`duration = 0`, where the floating-point computation yields exactly `0`. -/
def getDistance (duration : Nat) : Nat := duration * 34 / 2000

/-- `pulseIn` returns duration `0` when no echo is received. -/
def noEchoDuration : Nat := 0

/-! ## Actuation effects -/

/-- One blocking hardware action emitted during a cycle, in order. -/
inductive Action where
  | beep (btone bDelay : Nat)
  | rotate
  | retract
  | pause (ms : Nat)
deriving DecidableEq, Repr

/-- The fixed automatic-dispense sequence from the body of
`if (currThreshold == Threshold && !buttonIsActive)`:
pre-beep, dispense rotation, short pause, retract, pause, two
confirmation beeps. -/
def autoSeq : List Action :=
  [Action.beep 1000 500, Action.rotate, Action.pause 10, Action.retract,
   Action.pause 3000, Action.beep 3000 80, Action.beep 3000 80]

/-! ## One control cycle -/

/-- Inputs sampled during one `loop()` iteration: the raw button level
(`HIGH` = `true`) and the distance returned by `getDistance()`. -/
structure CycleIn where
  button : Bool
  distance : Nat
deriving DecidableEq, Repr

/-- Observable outcome of one `loop()` iteration. -/
structure CycleOut where
  /-- `currThreshold` at the end of the cycle. -/
  counter : Nat
  /-- the manual branch ran (`buttonState == HIGH`). -/
  manualDispense : Bool
  /-- the automatic-dispense branch ran. -/
  autoDispense : Bool
  /-- the block-warning branch ran. -/
  blockWarn : Bool
  /-- all blocking actions of the cycle, in program order. -/
  actions : List Action
deriving DecidableEq, Repr

/-- The counter update from `loop()`:
`if (distance < 30) currThreshold = currThreshold + 1; else currThreshold = 0;` -/
def updateCounter (c : Nat) (distance : Nat) : Nat :=
  if distance < nearLimit then c + 1 else 0

/-- The guard of the automatic-dispense branch:
`currThreshold == Threshold && !buttonIsActive`. -/
def autoCond (c' : Nat) (button : Bool) : Bool :=
  c' == Threshold && !button

/-- The guard of the block-warning branch: `currThreshold > 3`. -/
def warnCond (c' : Nat) : Bool :=
  blockWarningThreshold < c'

/-- One full `loop()` iteration as a pure function of the previous counter
and this cycle's inputs. Program order: manual branch (button read first,
`rotateStepper()` while held), then counter update from the distance read,
then the automatic-dispense branch, then the block-warning branch, then
`delay(100)`. -/
def loopStep (c : Nat) (inp : CycleIn) : CycleOut :=
  let c' := updateCounter c inp.distance
  let auto := autoCond c' inp.button
  let warn := warnCond c'
  { counter := c'
    manualDispense := inp.button
    autoDispense := auto
    blockWarn := warn
    actions :=
      (if inp.button then [Action.rotate] else []) ++
      (if auto then autoSeq else []) ++
      (if warn then [Action.beep 500 1000] else []) ++
      [Action.pause 100] }

/-! ## Whole-execution trace -/

/-- Counter value after folding a list of cycles from initial counter `c₀`
(at power-on `currThreshold = 0`). -/
def counterAfter (c₀ : Nat) (l : List CycleIn) : Nat :=
  l.foldl (fun c inp => updateCounter c inp.distance) c₀

/-- Trace of per-cycle outcomes starting from counter `c₀`. -/
def run (c₀ : Nat) : List CycleIn → List CycleOut
  | [] => []
  | inp :: is =>
      let out := loopStep c₀ inp
      out :: run out.counter is

/-- Input of cycle `n` (0-indexed); out-of-range reads a harmless
"far, button up" default. -/
def inpAt (l : List CycleIn) (n : Nat) : CycleIn :=
  l.getD n ⟨false, 1000⟩

/-- Outcome of cycle `n` of the execution on `l` from power-on. -/
def outAt (l : List CycleIn) (n : Nat) : CycleOut :=
  (run 0 l).getD n (loopStep 0 ⟨false, 1000⟩)

/-- Counter value at the end of cycle `n` of the execution on `l`. -/
def counterAt (l : List CycleIn) (n : Nat) : Nat :=
  counterAfter 0 (l.take (n + 1))

/-- Length of the longest suffix of near samples (distance `< 30`). -/
def suffixNearLen (ds : List Nat) : Nat :=
  (ds.reverse.takeWhile (fun d => d < nearLimit)).length

/-! ## Basic trace lemmas -/

theorem run_length (c₀ : Nat) (l : List CycleIn) : (run c₀ l).length = l.length := by
  induction l generalizing c₀ with
  | nil => rfl
  | cons inp is ih => simp [run, ih]

theorem loopStep_counter (c : Nat) (inp : CycleIn) :
    (loopStep c inp).counter = updateCounter c inp.distance := rfl

theorem counterAfter_append (c₀ : Nat) (l₁ l₂ : List CycleIn) :
    counterAfter c₀ (l₁ ++ l₂) = counterAfter (counterAfter c₀ l₁) l₂ := by
  simp [counterAfter, List.foldl_append]

theorem run_getD (c₀ : Nat) (l : List CycleIn) (n : Nat) (hn : n < l.length) :
    (run c₀ l).getD n (loopStep 0 ⟨false, 1000⟩) =
      loopStep (counterAfter c₀ (l.take n)) (l.getD n ⟨false, 1000⟩) := by
  induction l generalizing c₀ n with
  | nil => simp at hn
  | cons inp is ih =>
      cases n with
      | zero => simp [run, counterAfter]
      | succ m =>
          simp only [run, List.getD_cons_succ, List.take_succ_cons]
          rw [ih _ m (by simpa using hn)]
          rfl

theorem outAt_eq (l : List CycleIn) (n : Nat) (hn : n < l.length) :
    outAt l n = loopStep (counterAfter 0 (l.take n)) (inpAt l n) := by
  simpa [outAt, inpAt] using run_getD 0 l n hn

theorem counterAfter_take_succ (l : List CycleIn) (n : Nat) (hn : n < l.length) :
    counterAfter 0 (l.take (n + 1)) =
      updateCounter (counterAfter 0 (l.take n)) (inpAt l n).distance := by
  rw [List.take_succ, counterAfter_append]
  have h : l[n]? = some l[n] := List.getElem?_eq_getElem hn
  simp [h, counterAfter, inpAt, List.getD]

theorem outAt_counter (l : List CycleIn) (n : Nat) (hn : n < l.length) :
    (outAt l n).counter = counterAt l n := by
  rw [outAt_eq l n hn, loopStep_counter, counterAt, counterAfter_take_succ l n hn]

theorem outAt_auto (l : List CycleIn) (n : Nat) (hn : n < l.length) :
    (outAt l n).autoDispense = autoCond (counterAt l n) (inpAt l n).button := by
  have h := counterAfter_take_succ l n hn
  rw [outAt_eq l n hn]
  simp only [loopStep, counterAt, h]

theorem outAt_warn (l : List CycleIn) (n : Nat) (hn : n < l.length) :
    (outAt l n).blockWarn = warnCond (counterAt l n) := by
  have h := counterAfter_take_succ l n hn
  rw [outAt_eq l n hn]
  simp only [loopStep, counterAt, h]

theorem outAt_manual (l : List CycleIn) (n : Nat) (hn : n < l.length) :
    (outAt l n).manualDispense = (inpAt l n).button := by
  rw [outAt_eq l n hn]
  rfl

/-- Inside a run of near samples whose start is left-maximal (cycle `a - 1`
is non-near or the run starts at power-on), the counter at the `k`-th cycle
of the run is `k + 1`. -/
theorem counterAt_run (l : List CycleIn) (a : Nat)
    (hleft : a = 0 ∨ ¬ (inpAt l (a - 1)).distance < nearLimit) :
    ∀ k, a + k < l.length →
      (∀ j, a ≤ j → j ≤ a + k → (inpAt l j).distance < nearLimit) →
      counterAt l (a + k) = k + 1 := by
  intro k
  induction k with
  | zero =>
      intro hlen hnear
      simp only [Nat.add_zero] at hlen hnear ⊢
      have hstart : counterAfter 0 (l.take a) = 0 := by
        rcases hleft with h0 | hfar
        · subst h0; rfl
        · cases a with
          | zero => rfl
          | succ a' =>
              have ha' : a' < l.length := Nat.lt_of_succ_lt hlen
              rw [counterAfter_take_succ l a' ha']
              simp only [Nat.succ_sub_one] at hfar
              simp [updateCounter, hfar]
      simp only [counterAt]
      rw [counterAfter_take_succ l a hlen, hstart]
      simp [updateCounter, hnear a le_rfl le_rfl]
  | succ k ih =>
      intro hlen hnear
      have hlen' : a + k < l.length := by omega
      have hk := ih hlen' (fun j hj hj' => hnear j hj (by omega))
      have hstep : a + (k + 1) = (a + k) + 1 := by omega
      rw [hstep]
      simp only [counterAt] at hk ⊢
      rw [counterAfter_take_succ l (a + k + 1) (by omega), hk]
      have hnear' : (inpAt l (a + k + 1)).distance < nearLimit :=
        hnear (a + k + 1) (by omega) (by omega)
      simp [updateCounter, hnear']

/-- Counter value at any cycle `j` of a left-maximal run `[a, b]` of near
samples: `j - a + 1`. -/
theorem counterAt_of_run (l : List CycleIn) (a b : Nat) (hb : b < l.length)
    (hrun : ∀ j, a ≤ j → j ≤ b → (inpAt l j).distance < nearLimit)
    (hleft : a = 0 ∨ ¬ (inpAt l (a - 1)).distance < nearLimit)
    (j : Nat) (hj : a ≤ j) (hj' : j ≤ b) :
    counterAt l j = j - a + 1 := by
  have h := counterAt_run l a hleft (j - a) (by omega)
      (fun i hi hi' => hrun i hi (by omega))
  have hje : a + (j - a) = j := by omega
  rw [hje] at h
  omega

theorem counterAfter_eq_suffixNearLen (l : List CycleIn) :
    counterAfter 0 l = suffixNearLen (l.map CycleIn.distance) := by
  induction l using List.reverseRecOn with
  | nil => rfl
  | append_singleton l x ih =>
      rw [counterAfter_append, ih]
      by_cases hx : x.distance < nearLimit
      · simp [counterAfter, updateCounter, suffixNearLen, hx]
      · simp [counterAfter, updateCounter, suffixNearLen, hx]

/-! ## Claims -/

/-- C2: the `ProximityCounter` (`currThreshold`) after cycle `n` equals the
length of the longest suffix of near samples (distance `< 30`) ending at
cycle `n`: it increments by 1 on each near sample with no upper clamp, and
resets to 0 on any non-near sample. -/
theorem counter_is_near_run_length (l : List CycleIn) (n : Nat) (hn : n < l.length) :
    (outAt l n).counter = suffixNearLen ((l.take (n + 1)).map CycleIn.distance) := by
  rw [outAt_counter l n hn, counterAt, counterAfter_eq_suffixNearLen]

theorem counter_is_near_run_length_witness :
    (outAt [⟨false, 20⟩, ⟨false, 20⟩, ⟨false, 40⟩, ⟨false, 10⟩] 3).counter =
      suffixNearLen (([⟨false, 20⟩, ⟨false, 20⟩, ⟨false, 40⟩,
        (⟨false, 10⟩ : CycleIn)].take 4).map CycleIn.distance) :=
  counter_is_near_run_length [⟨false, 20⟩, ⟨false, 20⟩, ⟨false, 40⟩, ⟨false, 10⟩] 3
    (by decide)

/-- Scenario B of the spec: five near samples at 20 cm, button never held. -/
def scenarioB : List CycleIn := List.replicate 5 ⟨false, 20⟩

/-- C7: on samples `[20,20,20,20,20]` with the button never held, the counter
takes values 1,2,3,4,5; the automatic dispense fires exactly once, at
sample 2; the block-warning fires exactly at samples 4 and 5. -/
theorem scenarioB_trace :
    (run 0 scenarioB).map CycleOut.counter = [1, 2, 3, 4, 5] ∧
    (run 0 scenarioB).map CycleOut.autoDispense = [false, true, false, false, false] ∧
    (run 0 scenarioB).map CycleOut.blockWarn = [false, false, false, true, true] := by
  decide

/-- C1: the automatic dispense fires exactly once per maximal run of near
samples of length ≥ `Threshold`: it fires on the cycle where the running
counter first equals `Threshold` (cycle `a + 1 = a + Threshold - 1` of a run
starting at `a`) provided the button is not held there, and never again for
that same run. -/
theorem auto_dispense_once_per_run (l : List CycleIn) (a b : Nat) (hab : a ≤ b)
    (hb : b < l.length)
    (hrun : ∀ j, a ≤ j → j ≤ b → (inpAt l j).distance < nearLimit)
    (hleft : a = 0 ∨ ¬ (inpAt l (a - 1)).distance < nearLimit)
    (hright : b + 1 = l.length ∨ ¬ (inpAt l (b + 1)).distance < nearLimit)
    (hlen : Threshold ≤ b - a + 1)
    (hbtn : (inpAt l (a + 1)).button = false) :
    (outAt l (a + 1)).autoDispense = true ∧
      ∀ j, a ≤ j → j ≤ b → j ≠ a + 1 → (outAt l j).autoDispense = false := by
  simp only [Threshold] at hlen
  have h1b : a + 1 ≤ b := by omega
  constructor
  · rw [outAt_auto l (a + 1) (by omega),
      counterAt_of_run l a b hb hrun hleft (a + 1) (by omega) h1b, hbtn]
    have h2 : a + 1 - a + 1 = 2 := by omega
    rw [h2]
    decide
  · intro j hj hj' hne
    rw [outAt_auto l j (by omega), counterAt_of_run l a b hb hrun hleft j hj hj']
    have hne2 : (j - a + 1 == Threshold) = false := by
      simp only [Threshold, beq_eq_false_iff_ne, ne_eq]
      omega
    simp [autoCond, hne2]

/-- Three-cycle execution: one maximal run of two near samples then a far
sample, button never held. -/
def approachRetreat : List CycleIn := [⟨false, 20⟩, ⟨false, 20⟩, ⟨false, 40⟩]

theorem auto_dispense_once_per_run_witness :
    (outAt approachRetreat 1).autoDispense = true ∧
      (outAt approachRetreat 0).autoDispense = false := by
  have h := auto_dispense_once_per_run approachRetreat 0 1 (by decide) (by decide)
      (by intro j h0 h1; interval_cases j <;> decide)
      (by decide) (by decide) (by decide) (by decide)
  exact ⟨h.1, h.2 0 (by decide) (by decide) (by decide)⟩

/-- C9: if the button is held during the one cycle of a run where the counter
equals `Threshold`, the automatic dispense never fires during that entire run
of consecutive near samples, even after the button is released, because the
counter increments past the exact-equality check. -/
theorem held_at_threshold_suppresses_run (l : List CycleIn) (a b : Nat) (hab : a ≤ b)
    (hb : b < l.length)
    (hrun : ∀ j, a ≤ j → j ≤ b → (inpAt l j).distance < nearLimit)
    (hleft : a = 0 ∨ ¬ (inpAt l (a - 1)).distance < nearLimit)
    (hright : b + 1 = l.length ∨ ¬ (inpAt l (b + 1)).distance < nearLimit)
    (hlen : Threshold ≤ b - a + 1)
    (hbtn : (inpAt l (a + 1)).button = true) :
    ∀ j, a ≤ j → j ≤ b → (outAt l j).autoDispense = false := by
  intro j hj hj'
  rw [outAt_auto l j (by omega), counterAt_of_run l a b hb hrun hleft j hj hj']
  by_cases hje : j = a + 1
  · subst hje
    rw [hbtn]
    have h2 : a + 1 - a + 1 = 2 := by omega
    rw [h2]
    decide
  · have hne2 : (j - a + 1 == Threshold) = false := by
      simp only [Threshold, beq_eq_false_iff_ne, ne_eq]
      omega
    simp [autoCond, hne2]

/-- Four-cycle execution: a run of three near samples with the button held
exactly on the cycle where the counter reaches `Threshold`, then a far
sample. -/
def heldAtThreshold : List CycleIn :=
  [⟨false, 20⟩, ⟨true, 20⟩, ⟨false, 20⟩, ⟨false, 40⟩]

theorem held_at_threshold_suppresses_run_witness :
    (outAt heldAtThreshold 1).autoDispense = false ∧
      (outAt heldAtThreshold 2).autoDispense = false := by
  have h := held_at_threshold_suppresses_run heldAtThreshold 0 2 (by decide) (by decide)
      (by intro j h0 h1; interval_cases j <;> decide)
      (by decide) (by decide) (by decide) (by decide)
  exact ⟨h 1 (by decide) (by decide), h 2 (by decide) (by decide)⟩

/-- Five manual-override cycles over a near object (button held, 20 cm). -/
def blockedManual : List CycleIn := List.replicate 5 ⟨true, 20⟩

/-- C3 counterexample: on the fifth cycle of `blockedManual` the button is
held, yet the block-warning branch runs and its beep is among the cycle's
actions — contradicting "no block-warning logic executes and no beep of any
kind during a manual-override cycle". -/
theorem manual_cycle_block_warn_cex :
    (outAt blockedManual 4).manualDispense = true ∧
      (outAt blockedManual 4).blockWarn = true ∧
      Action.beep 500 1000 ∈ (outAt blockedManual 4).actions := by
  decide

/-- C3 (amended): in every cycle with the button held, the automatic
dispense branch never runs and the manual dispense motion runs; but the
block-warning branch is not suppressed — it still fires exactly when the
counter (which keeps updating from the distance sample) exceeds the
block-warning threshold. -/
theorem manual_override_suppresses_auto_only (l : List CycleIn) (n : Nat)
    (hn : n < l.length) (hbtn : (inpAt l n).button = true) :
    (outAt l n).autoDispense = false ∧
      (outAt l n).manualDispense = true ∧
      ((outAt l n).blockWarn = true ↔ blockWarningThreshold < counterAt l n) := by
  refine ⟨?_, ?_, ?_⟩
  · rw [outAt_auto l n hn, hbtn]
    simp [autoCond]
  · rw [outAt_manual l n hn, hbtn]
  · rw [outAt_warn l n hn]
    simp [warnCond]

theorem manual_override_suppresses_auto_only_witness :
    (outAt blockedManual 4).autoDispense = false ∧
      (outAt blockedManual 4).manualDispense = true ∧
      ((outAt blockedManual 4).blockWarn = true ↔
        blockWarningThreshold < counterAt blockedManual 4) :=
  manual_override_suppresses_auto_only blockedManual 4 (by decide) (by decide)

/-- C4: the block-warning fires in exactly the cycles where the counter
exceeds `blockWarningThreshold` (level-triggered, repeating each such
cycle), a warning cycle never also auto-dispenses, and the warning is off in
any cycle whose sample is non-near (the counter having just reset to 0). -/
theorem block_warning_level_triggered (l : List CycleIn) (n : Nat) (hn : n < l.length) :
    ((outAt l n).blockWarn = true ↔ blockWarningThreshold < counterAt l n) ∧
      ((outAt l n).blockWarn = true → (outAt l n).autoDispense = false) ∧
      (¬ (inpAt l n).distance < nearLimit → (outAt l n).blockWarn = false) := by
  refine ⟨?_, ?_, ?_⟩
  · rw [outAt_warn l n hn]
    simp [warnCond]
  · intro hw
    rw [outAt_warn l n hn] at hw
    rw [outAt_auto l n hn]
    have hc : blockWarningThreshold < counterAt l n := by simpa [warnCond] using hw
    have hne2 : (counterAt l n == Threshold) = false := by
      simp only [Threshold, beq_eq_false_iff_ne, ne_eq]
      simp only [blockWarningThreshold] at hc
      omega
    simp [autoCond, hne2]
  · intro hfar
    rw [outAt_warn l n hn]
    have hc0 : counterAt l n = 0 := by
      rw [counterAt, counterAfter_take_succ l n hn]
      simp [updateCounter, hfar]
    rw [hc0]
    decide

theorem block_warning_level_triggered_witness :
    (outAt scenarioB 4).blockWarn = true ↔
      blockWarningThreshold < counterAt scenarioB 4 :=
  (block_warning_level_triggered scenarioB 4 (by decide)).1

/-- C5: a no-echo read yields the sentinel distance 0, which is below the
30 cm near limit and updates the counter exactly like any valid near
reading: it increments the counter by one and so counts toward the
automatic dispense threshold like an object extremely close to the
sensor. -/
theorem no_echo_counts_as_near :
    getDistance noEchoDuration = 0 ∧
      getDistance noEchoDuration < nearLimit ∧
      (∀ c : Nat, updateCounter c (getDistance noEchoDuration) = c + 1) ∧
      ∀ c d : Nat, d < nearLimit →
        updateCounter c (getDistance noEchoDuration) = updateCounter c d := by
  refine ⟨rfl, by decide, ?_, ?_⟩
  · intro c
    simp [updateCounter, getDistance, noEchoDuration, nearLimit]
  · intro c d hd
    have h0 : getDistance noEchoDuration < nearLimit := by decide
    simp [updateCounter, h0, hd]

theorem no_echo_counts_as_near_witness :
    getDistance noEchoDuration = 0 ∧
      updateCounter 7 (getDistance noEchoDuration) = updateCounter 7 20 :=
  ⟨no_echo_counts_as_near.1, no_echo_counts_as_near.2.2.2 7 20 (by decide)⟩

/-- One manual-override cycle over a near object. -/
def manualNearCycle : List CycleIn := [⟨true, 20⟩]

/-- C6 counterexample: a single manual-override cycle with a near sample:
the counter is 0 before the cycle but 1 after it, so a manual cycle does
advance the counter. -/
theorem manual_cycle_advances_counter_cex :
    (inpAt manualNearCycle 0).button = true ∧
      counterAfter 0 manualNearCycle ≠ 0 := by
  decide

/-- C6 (amended): the button level has no effect on the counter update, but
a manual-override cycle still updates the counter from its distance sample
exactly as a non-manual cycle does (increment if near, reset to 0
otherwise). -/
theorem counter_ignores_button (c d : Nat) (b b' : Bool) :
    (loopStep c ⟨b, d⟩).counter = (loopStep c ⟨b', d⟩).counter ∧
      (loopStep c ⟨b, d⟩).counter = updateCounter c d :=
  ⟨rfl, rfl⟩

/-! ## Motion timing (`rotateStepper` / `retractStepper`) -/

/-- Loop bound of `rotateStepper`: `stepsPerRevolution * 2`, parameterized
by the dispense-length multiplier (the literal `2`, `"*2" = longer
dispense`). -/
def rotateStepperSteps (spr mult : Nat) : Nat := spr * mult

/-- The literal `2` in `stepsPerRevolution * 2` in `rotateStepper`. -/
def dispenseLengthMultiplier : Nat := 2

/-- Loop bound of `retractStepper`: `stepsPerRevolution`. -/
def retractStepperSteps (spr : Nat) : Nat := spr

/-- One step iteration: 5000 µs pulse HIGH plus 5000 µs LOW. -/
def stepPeriodUs : Nat := 5000 + 5000

/-- The two compile-time knobs the motion lengths are built from. -/
structure MotionConfig where
  spr : Nat
  dispenseMult : Nat
deriving DecidableEq, Repr

/-- Blocking duration of `rotateStepper` under a configuration. -/
def dispenseDurationUs (cfg : MotionConfig) : Nat :=
  rotateStepperSteps cfg.spr cfg.dispenseMult * stepPeriodUs

/-- Blocking duration of `retractStepper` under a configuration. -/
def retractDurationUs (cfg : MotionConfig) : Nat :=
  retractStepperSteps cfg.spr * stepPeriodUs

/-- The constants as configured in the source. -/
def sourceConfig : MotionConfig := ⟨stepsPerRevolution, dispenseLengthMultiplier⟩

/-- C8: with the source constants the retract motion lasts exactly half the
dispense motion (i.e. "roughly half"), and the retract duration does not
depend on the dispense-length multiplier: any two configurations agreeing
on `stepsPerRevolution` have equal retract durations, whatever their
dispense multipliers. -/
theorem retract_half_and_independent :
    2 * retractDurationUs sourceConfig = dispenseDurationUs sourceConfig ∧
      ∀ cfg cfg' : MotionConfig, cfg.spr = cfg'.spr →
        retractDurationUs cfg = retractDurationUs cfg' := by
  constructor
  · rfl
  · intro cfg cfg' h
    simp [retractDurationUs, retractStepperSteps, h]

theorem retract_half_and_independent_witness :
    2 * retractDurationUs sourceConfig = dispenseDurationUs sourceConfig ∧
      retractDurationUs ⟨100, 2⟩ = retractDurationUs ⟨100, 7⟩ :=
  ⟨retract_half_and_independent.1,
    retract_half_and_independent.2 ⟨100, 2⟩ ⟨100, 7⟩ rfl⟩

/-- C10: the automatic-dispense and block-warning branches are mutually
exclusive in every cycle: with `Threshold = 2` and the warning bound 3, no
counter value can satisfy both guards, whatever the inputs. -/
theorem auto_and_warn_mutually_exclusive (c : Nat) (inp : CycleIn) :
    (loopStep c inp).autoDispense = false ∨ (loopStep c inp).blockWarn = false := by
  simp only [loopStep]
  by_cases h : updateCounter c inp.distance = Threshold
  · right
    simp [warnCond, h, blockWarningThreshold, Threshold]
  · left
    simp [autoCond, h]

end Dispenser
